import Mathlib

/-!
Verification development for the turtlebot_wander controller
(src/turtlebot_follower/src/random_walker.cpp).

The C++ nodelet processes point-cloud frames in `cloudcb`, bumper events in
`bumperEventCB`, and start/stop requests in `changeModeSrvCb`.  We embed those
three entry points as pure Lean functions over an explicit controller state.

Floating-point coordinates are modelled as `Option ℚ`: `none` stands for NaN,
`some q` for a finite value.  Every IEEE comparison involving NaN is false,
which `cLt` reproduces; this is the only float behaviour the control flow of
the source depends on (the source performs no operation that rounds in a way
any claim is sensitive to, so finite values are kept exact as rationals).

The `while(ros::ok() && change_direction_)` recovery loops publish one command
per iteration and clear `change_direction_` once the iteration counter exceeds
the budget; they are embedded as the structurally recursive `loopFrom`.  The
time-seeded `rand()` draws are modelled by an oracle argument `r : ℕ` supplied
with each frame (the source draws at most once per frame).  Publishing is
modelled by returning the list of commands emitted during the callback, in
order.  Marker publishing (`publishMarker`, `publishBbox`) goes to separate
debug topics and emits no velocity command, so it is not modelled.
-/

namespace RandomWalker

/-- A floating-point scalar: `none` is NaN, `some q` a finite value. -/
abbrev Coord := Option ℚ

/-- The test `std::isnan`. -/
def isNaNc : Coord → Bool
  | none => true
  | some _ => false

/-- IEEE `<` : any comparison against NaN is false. -/
def cLt : Coord → Coord → Bool
  | some a, some b => decide (a < b)
  | _, _ => false

/-- IEEE negation: `-NaN` is NaN. -/
def cNeg : Coord → Coord
  | none => none
  | some a => some (-a)

/-- IEEE addition: NaN absorbs. -/
def cAdd : Coord → Coord → Coord
  | some a, some b => some (a + b)
  | _, _ => none

/-- IEEE subtraction: NaN absorbs. -/
def cSub : Coord → Coord → Coord
  | some a, some b => some (a - b)
  | _, _ => none

/-- The call `std::min(a, b)` is `b < a ? b : a`, with the IEEE comparison. -/
def cMin (a b : Coord) : Coord := if cLt b a then b else a

/-- Division of the accumulated sum by the point count (`x /= n`). -/
def cDivNat : Coord → ℕ → Coord
  | some a, n => some (a / (n : ℚ))
  | none, _ => none

/-- One point of the input cloud (`pcl::PointXYZ`); coordinates may be NaN. -/
structure Point3D where
  x : Coord
  y : Coord
  z : Coord

/-- The configuration fields of the nodelet (constructor defaults at the
bottom; all fields may be overwritten by parameters or reconfiguration).
`z_scale` and `x_scale` are read by the source but never used by any velocity
formula. -/
structure BoxConfig where
  min_y : ℚ
  max_y : ℚ
  min_x : ℚ
  max_x : ℚ
  max_z : ℚ
  goal_z : ℚ
  z_scale : ℚ
  x_scale : ℚ

/-- The constructor defaults:
`min_y=0.1, max_y=0.5, min_x=-0.2, max_x=0.2, max_z=0.8, goal_z=0.6,
z_scale=1.0, x_scale=5.0`. -/
def defaultCfg : BoxConfig :=
  { min_y := 1/10, max_y := 1/2, min_x := -(1/5), max_x := 1/5,
    max_z := 4/5, goal_z := 3/5, z_scale := 1, x_scale := 5 }

/-- The mutable member state of the nodelet read and written by the three
callbacks: `enabled_`, the three bumper pressed flags, and
`change_direction_` (the active-recovery-request flag). -/
structure CtrlState where
  enabled : Bool
  bumperLeft : Bool
  bumperCenter : Bool
  bumperRight : Bool
  changeDirection : Bool

/-- A `geometry_msgs::Twist` restricted to the two fields the source ever
sets: `linear.x` and `angular.z` (a fresh message has both zero). -/
structure VelocityCommand where
  linear_x : ℚ
  angular_z : ℚ

/-- The accumulator state of the centroid scan in `cloudcb`:
`float x = 0, y = 0, z = 1e6; unsigned int n = 0`. -/
structure ScanState where
  x : Coord
  y : Coord
  z : Coord
  n : ℕ

def initScan : ScanState := ⟨some 0, some 0, some 1000000, 0⟩

/-- The box membership test of line 219:
`-pt.y > min_y_ && -pt.y < max_y_ && pt.x < max_x_ && pt.x > min_x_ && pt.z < max_z_`. -/
def boxTest (cfg : BoxConfig) (pt : Point3D) : Bool :=
  cLt (some cfg.min_y) (cNeg pt.y) && cLt (cNeg pt.y) (some cfg.max_y) &&
  cLt pt.x (some cfg.max_x) && cLt (some cfg.min_x) pt.x &&
  cLt pt.z (some cfg.max_z)

/-- One iteration of the scan loop.  The guard reproduces line 216 of the
source verbatim: it tests the accumulators `x`, `y`, `z` for NaN (not the
point's coordinates). -/
def scanStep (cfg : BoxConfig) (s : ScanState) (pt : Point3D) : ScanState :=
  if !isNaNc s.x && !isNaNc s.y && !isNaNc s.z then
    if boxTest cfg pt then
      { x := cAdd s.x pt.x, y := cAdd s.y pt.y, z := cMin s.z pt.z, n := s.n + 1 }
    else s
  else s

/-- The whole `BOOST_FOREACH` scan over the frame. -/
def computeScan (cfg : BoxConfig) (cloud : List Point3D) : ScanState :=
  cloud.foldl (scanStep cfg) initScan

/-- The Centroid of the spec's data model, as the source computes it:
the sums are divided by `n` only in the `n > 4000` branch. -/
structure Centroid where
  x : Coord
  y : Coord
  z_min : Coord
  count : ℕ
  found : Bool

def centroidOf (cfg : BoxConfig) (cloud : List Point3D) : Centroid :=
  let s := computeScan cfg cloud
  if 4000 < s.n then
    { x := cDivNat s.x s.n, y := cDivNat s.y s.n, z_min := s.z, count := s.n, found := true }
  else
    { x := s.x, y := s.y, z_min := s.z, count := s.n, found := false }

/-- The recovery while loop, entered with iteration counter `count`:
`while(ros::ok() && cd){ count++; publish(cmd); if (count > budget) cd = false; }`.
Returns the final `cd` flag and the list of published commands. -/
def loopFrom (cmd : VelocityCommand) (budget : ℕ) (cd : Bool) (count : ℕ) :
    Bool × List VelocityCommand :=
  if cd then
    if budget < count + 1 then (false, [cmd])
    else
      let rest := loopFrom cmd budget true (count + 1)
      (rest.1, cmd :: rest.2)
  else (cd, [])
termination_by budget + 1 - count
decreasing_by
  simp_wf
  omega

/-- The recovery while loop as the source enters it, with `count = 0`. -/
def recoveryLoop (cmd : VelocityCommand) (budget : ℕ) (cd : Bool) :
    Bool × List VelocityCommand :=
  loopFrom cmd budget cd 0

/-- The `if(bumper_left_pressed_) ... else if(bumper_center_pressed_) ...
else if(bumper_right_pressed_) ... else ...` chain, duplicated in all three
dispatch regimes of `cloudcb`.  The left and right recovery commands and all
budgets are identical across the regimes; the centre command differs (the
found-centroid hold regime uses angular `-0.4` where the other two regimes use
`-0.5`), so it is a parameter, as is the command list of the non-recovery
`else` branch. -/
def bumperDispatch (st : CtrlState) (centerCmd : VelocityCommand)
    (normal : List VelocityCommand) : CtrlState × List VelocityCommand :=
  if st.bumperLeft then
    let lr := recoveryLoop ⟨-(1/5), -(2/5)⟩ 15 st.changeDirection
    ({ st with changeDirection := lr.1 }, lr.2)
  else if st.bumperCenter then
    let lr := recoveryLoop centerCmd 20 st.changeDirection
    ({ st with changeDirection := lr.1 }, lr.2)
  else if st.bumperRight then
    let lr := recoveryLoop ⟨-(1/5), 2/5⟩ 15 st.changeDirection
    ({ st with changeDirection := lr.1 }, lr.2)
  else (st, normal)

/-- The non-recovery command of the approach regime (`z - goal_z > 0`,
lines 282-325).  `qx` is the already divided centroid x; `cd` is
`change_direction_`; `r` the oracle for `rand()`.  The local
`bool direction = 0` of `cloudcb` is initialised to 0 at the top of every
frame and no assignment to it precedes this point in the frame, so the
indecisive branch reads it as `false`. -/
def approachCmd (qx : Coord) (cd : Bool) (r : ℕ) : VelocityCommand :=
  let direction : Bool := false
  if cLt (some (1/5)) qx then
    let ra : ℚ := (r % 7 : ℕ) / 7
    { linear_x := 1/5,
      angular_z :=
        if 7/10 < ra ∧ ra ≤ 1 then 2/5
        else if 2/5 < ra ∧ ra ≤ 7/10 then ra
        else 3/10 }
  else if cLt qx (some (-(1/5))) then
    let ra : ℚ := (r % 7 : ℕ) / 7 - 1
    { linear_x := 1/5,
      angular_z :=
        if -1 ≤ ra ∧ ra < -(7/10) then -(36/100)
        else if -(7/10) ≤ ra ∧ ra < -(1/2) then ra
        else -(1/5) }
  else
    { linear_x := 1/5,
      angular_z :=
        if direction then 3/10
        else if !cd then -(3/10) else 0 }

/-- The non-recovery command of the hold regime (`z - goal_z ≤ 0`,
lines 369-414), with the 10-level quantisation (`MAX 10`). -/
def holdCmd (qx : Coord) (r : ℕ) : VelocityCommand :=
  let direction : Bool := false
  if cLt (some (1/5)) qx then
    let ang : ℚ := (r % 10 : ℕ) / 10
    { linear_x := 0,
      angular_z :=
        if 7/10 < ang ∧ ang ≤ 1 then 2/5
        else if 2/5 < ang ∧ ang ≤ 7/10 then ang
        else 3/10 }
  else if cLt qx (some (-(1/5))) then
    let ang : ℚ := (r % 10 : ℕ) / 10 - 1
    { linear_x := 0,
      angular_z :=
        if -1 ≤ ang ∧ ang < -(7/10) then -(1/5)
        else if -(7/10) ≤ ang ∧ ang < -(2/5) then ang
        else -(1/5) }
  else
    { linear_x := 0,
      angular_z := if direction then 3/10 else -(3/10) }

/-- The point-cloud callback `cloudcb`.  Returns the updated member state
(only `change_direction_` is ever written by this callback) and the list of
velocity commands published during the callback, in order. -/
def cloudcb (cfg : BoxConfig) (st : CtrlState) (cloud : List Point3D) (r : ℕ) :
    CtrlState × List VelocityCommand :=
  let s := computeScan cfg cloud
  if 4000 < s.n then
    let qx := cDivNat s.x s.n
    if cLt (some 0) (cSub s.z (some cfg.goal_z)) then
      bumperDispatch st ⟨-(1/5), -(1/2)⟩ [approachCmd qx st.changeDirection r]
    else
      bumperDispatch st ⟨-(1/5), -(2/5)⟩ [holdCmd qx r]
  else
    if st.enabled then
      bumperDispatch st ⟨-(1/5), -(1/2)⟩ [⟨1/5, 0⟩]
    else (st, [])

/-- The three bumper sides of `kobuki_msgs::BumperEvent`. -/
inductive BumperSide where
  | left
  | center
  | right

/-- A bumper event; `pressed = true` models `state == PRESSED`. -/
structure BumperEvent where
  side : BumperSide
  pressed : Bool

/-- The pressed flag of one side. -/
def sideFlag (st : CtrlState) : BumperSide → Bool
  | .left => st.bumperLeft
  | .center => st.bumperCenter
  | .right => st.bumperRight

/-- The bumper event callback `bumperEventCB`. -/
def bumperEventCB (st : CtrlState) (e : BumperEvent) : CtrlState :=
  if e.pressed then
    match e.side with
    | .left =>
        if !st.bumperLeft then
          { st with bumperLeft := true, changeDirection := true }
        else st
    | .center =>
        if !st.bumperCenter then
          { st with bumperCenter := true, changeDirection := true }
        else st
    | .right =>
        if !st.bumperRight then
          { st with bumperRight := true, changeDirection := true }
        else st
  else
    match e.side with
    | .left => { st with bumperLeft := false }
    | .center => { st with bumperCenter := false }
    | .right => { st with bumperRight := false }

/-- An event raises a RecoveryRequest exactly when `bumperEventCB` executes
the `change_direction_ = true` assignment: a Pressed event for a side whose
flag is currently false. -/
def raisesRequest (st : CtrlState) (e : BumperEvent) : Bool :=
  e.pressed && !(sideFlag st e.side)

/-- The number of RecoveryRequests raised while processing a sequence of
bumper events. -/
def raiseCount : CtrlState → List BumperEvent → ℕ
  | _, [] => 0
  | st, e :: es =>
      (if raisesRequest st e then 1 else 0) + raiseCount (bumperEventCB st e) es

/-- The request body of `turtlebot_msgs::SetFollowState`. -/
inductive FollowRequest where
  | follow
  | stopped
deriving DecidableEq

/-- The response result; the source always answers OK. -/
inductive SrvResult where
  | ok
  | error

/-- The service callback `changeModeSrvCb`: updated state, published
commands, and the response result. -/
def changeModeSrvCb (st : CtrlState) (req : FollowRequest) :
    CtrlState × List VelocityCommand × SrvResult :=
  if st.enabled = true ∧ req = .stopped then
    ({ st with enabled := false }, [⟨0, 0⟩], .ok)
  else if st.enabled = false ∧ req = .follow then
    ({ st with enabled := true }, [], .ok)
  else (st, [], .ok)

/-! ### Spec-side notions used to state the centroid properties -/

/-- The sub-list of points of a frame that pass the box test.  (During the
scan the NaN guard of line 216 is applied to the accumulators, which are
never NaN, so the passing points are exactly the filter below; proved in
`computeScan_filter`.) -/
def passing (cfg : BoxConfig) (cloud : List Point3D) : List Point3D :=
  cloud.filter (fun p => boxTest cfg p)

/-- The rational value of a finite coordinate (0 for NaN; only applied to
coordinates proved finite). -/
def qor0 : Coord → ℚ
  | none => 0
  | some q => q

/-- Sum of the x coordinates of a list of points. -/
def sumX (l : List Point3D) : ℚ := (l.map (fun p => qor0 p.x)).sum

/-- Sum of the y coordinates of a list of points. -/
def sumY (l : List Point3D) : ℚ := (l.map (fun p => qor0 p.y)).sum

/-- One step of the running minimum over z, as the scan performs it. -/
def pzMin (acc : ℚ) (p : Point3D) : ℚ := if qor0 p.z < acc then qor0 p.z else acc

/-- The value the scan's z accumulator reaches: the running minimum of the
passing points' z, started at the initialisation value `1e6`. -/
def zmin (cfg : BoxConfig) (cloud : List Point3D) : ℚ :=
  (passing cfg cloud).foldl pzMin 1000000

/-! ### Concrete states, configurations and frames used by the witnesses and
counterexamples -/

/-- Enabled, no bumper pressed, no recovery active. -/
def wanderSt : CtrlState := ⟨true, false, false, false, false⟩

/-- Disabled, no bumper pressed, no recovery active. -/
def wanderStD : CtrlState := ⟨false, false, false, false, false⟩

/-- Enabled, no bumper pressed, recovery request still flagged. -/
def cdSt : CtrlState := ⟨true, false, false, false, true⟩

/-- Enabled, left bumper pressed, recovery request active. -/
def leftRecSt : CtrlState := ⟨true, true, false, false, true⟩

/-- Enabled, centre bumper pressed, recovery request active. -/
def holdSt : CtrlState := ⟨true, false, true, false, true⟩

/-- A point inside the default box with mean-zero x, at range 0.7 (farther
than `goal_z = 0.6`, so the approach regime applies). -/
def centerPoint : Point3D := ⟨some 0, some (-(3/10)), some (7/10)⟩

/-- 4001 copies of `centerPoint`: a found centroid in the approach regime. -/
def centerCloud : List Point3D := List.replicate 4001 centerPoint

/-- A point inside the default box at range 0.5 (at most `goal_z`, so the
hold regime applies). -/
def holdPoint : Point3D := ⟨some 0, some (-(3/10)), some (1/2)⟩

/-- 4001 copies of `holdPoint`: a found centroid in the hold regime. -/
def holdCloud : List Point3D := List.replicate 4001 holdPoint

/-- The default configuration with the x bounds widened so a decisive lateral
centroid is reachable. -/
def cfgWide : BoxConfig :=
  { min_y := 1/10, max_y := 1/2, min_x := -1, max_x := 1,
    max_z := 4/5, goal_z := 3/5, z_scale := 1, x_scale := 5 }

/-- A point with x = 0.5 inside the widened box, in the approach regime. -/
def rightPoint : Point3D := ⟨some (1/2), some (-(3/10)), some (7/10)⟩

/-- 4001 copies of `rightPoint`: centroid x = 0.5 > 0.2 (a decisive right
turn). -/
def rightCloud : List Point3D := List.replicate 4001 rightPoint

/-- The default configuration with `max_z` raised above the scan's `1e6`
z-accumulator initialisation. -/
def farCfg : BoxConfig :=
  { min_y := 1/10, max_y := 1/2, min_x := -(1/5), max_x := 1/5,
    max_z := 3000000, goal_z := 3/5, z_scale := 1, x_scale := 5 }

/-- A passing point whose z lies above the `1e6` initialisation value. -/
def farPoint : Point3D := ⟨some 0, some (-(3/10)), some 2000000⟩

/-- 4001 copies of `farPoint`. -/
def farCloud : List Point3D := List.replicate 4001 farPoint

/-- State after pressing the left bumper from `wanderSt`. -/
def c4Pressed : CtrlState := bumperEventCB wanderSt ⟨.left, true⟩

/-- State after then releasing the left bumper, before any frame arrives. -/
def c4Released : CtrlState := bumperEventCB c4Pressed ⟨.left, false⟩

/-! ### Helper lemmas -/

/-- One unfolding of the recovery loop: the iteration that exhausts the
budget publishes the command and clears the flag. -/
lemma loopFrom_stop (cmd : VelocityCommand) (budget count : ℕ)
    (h : budget < count + 1) :
    loopFrom cmd budget true count = (false, [cmd]) := by
  rw [loopFrom, if_pos rfl, if_pos h]

/-- One unfolding of the recovery loop: an iteration within the budget
publishes the command and continues. -/
lemma loopFrom_go (cmd : VelocityCommand) (budget count : ℕ)
    (h : ¬ budget < count + 1) :
    loopFrom cmd budget true count =
      ((loopFrom cmd budget true (count + 1)).1,
        cmd :: (loopFrom cmd budget true (count + 1)).2) := by
  rw [loopFrom, if_pos rfl, if_neg h]

/-- Closed form of the recovery while loop when entered with the request flag
set: starting at counter `count ≤ budget` it publishes `budget + 1 - count`
copies of the command and clears the flag. -/
lemma loopFrom_true (cmd : VelocityCommand) (budget : ℕ) :
    ∀ k count, budget - count = k → count ≤ budget →
      loopFrom cmd budget true count =
        (false, List.replicate (budget + 1 - count) cmd) := by
  intro k
  induction k with
  | zero =>
      intro count hk hle
      have hb : budget ≤ count := Nat.sub_eq_zero_iff_le.mp hk
      have heq : budget = count := Nat.le_antisymm hb hle
      have h1 : budget < count + 1 := Nat.lt_succ_of_le hb
      have h2 : budget + 1 - count = 1 := by
        rw [heq, Nat.add_sub_cancel_left]
      rw [h2, List.replicate_one, loopFrom_stop cmd budget count h1]
  | succ n ih =>
      intro count hk hle
      have hlt : count < budget := Nat.lt_of_sub_eq_succ hk
      have h1 : ¬ budget < count + 1 := Nat.not_lt.mpr hlt
      have h2 : budget - (count + 1) = n := by
        rw [← Nat.sub_sub, hk]
        exact Nat.succ_sub_one n
      have h4 : budget + 1 - count = (budget + 1 - (count + 1)) + 1 := by
        rw [Nat.add_sub_add_right, Nat.sub_add_comm hle]
      rw [h4, List.replicate_succ, loopFrom_go cmd budget count h1,
        ih (count + 1) h2 hlt]

/-- The recovery loop with an active request publishes `budget + 1` commands
and clears the flag. -/
lemma recoveryLoop_true (cmd : VelocityCommand) (budget : ℕ) :
    recoveryLoop cmd budget true = (false, List.replicate (budget + 1) cmd) := by
  have := loopFrom_true cmd budget budget 0 (by omega) (by omega)
  simpa [recoveryLoop] using this

/-- The recovery loop with no active request publishes nothing. -/
lemma recoveryLoop_false (cmd : VelocityCommand) (budget : ℕ) :
    recoveryLoop cmd budget false = (false, []) := by
  rw [recoveryLoop, loopFrom]
  simp

/-- A point with a NaN coordinate fails the box test. -/
lemma boxTest_nan (cfg : BoxConfig) (p : Point3D)
    (h : p.x = none ∨ p.y = none ∨ p.z = none) : boxTest cfg p = false := by
  rcases h with h | h | h <;> simp [boxTest, h, cNeg, cLt]

/-- Componentwise sufficient condition for passing the box test. -/
lemma boxTest_true_of (cfg : BoxConfig) (x y z : ℚ)
    (h1 : cfg.min_y < -y) (h2 : -y < cfg.max_y) (h3 : x < cfg.max_x)
    (h4 : cfg.min_x < x) (h5 : z < cfg.max_z) :
    boxTest cfg ⟨some x, some y, some z⟩ = true := by
  simp only [boxTest, cLt, cNeg, Bool.and_eq_true, decide_eq_true_eq]
  exact ⟨⟨⟨⟨h1, h2⟩, h3⟩, h4⟩, h5⟩

/-- The IEEE comparison on finite values, true case. -/
lemma cLt_true_of (a b : ℚ) (h : a < b) : cLt (some a) (some b) = true := by
  simp only [cLt, decide_eq_true_eq]
  exact h

/-- The IEEE comparison on finite values, false case. -/
lemma cLt_false_of (a b : ℚ) (h : ¬ a < b) : cLt (some a) (some b) = false := by
  simp only [cLt]
  exact decide_eq_false h

/-- Subtraction of finite values. -/
lemma cSub_some (a b : ℚ) : cSub (some a) (some b) = some (a - b) := rfl

/-- Division of a finite value by a count. -/
lemma cDivNat_some (a : ℚ) (n : ℕ) : cDivNat (some a) n = some (a / (n : ℚ)) := rfl

/-- A point with a NaN coordinate leaves the scan state untouched. -/
lemma scanStep_nan (cfg : BoxConfig) (s : ScanState) (p : Point3D)
    (h : p.x = none ∨ p.y = none ∨ p.z = none) : scanStep cfg s p = s := by
  rw [scanStep]
  rw [boxTest_nan cfg p h]
  simp

/-- Folding the scan step over `m` copies of a passing all-finite point, from
a state whose accumulators are finite and whose `z` accumulator is not above
the point's `z`. -/
lemma scan_fold_replicate (cfg : BoxConfig) (px py pz c : ℚ)
    (h : boxTest cfg ⟨some px, some py, some pz⟩ = true) (hc : ¬ pz < c) :
    ∀ (m : ℕ) (a b : ℚ) (k : ℕ),
      List.foldl (scanStep cfg) ⟨some a, some b, some c, k⟩
          (List.replicate m ⟨some px, some py, some pz⟩) =
        ⟨some (a + m * px), some (b + m * py), some c, k + m⟩ := by
  intro m
  induction m with
  | zero => intro a b k; simp
  | succ n ih =>
      intro a b k
      rw [List.replicate_succ, List.foldl_cons]
      have hcc : cLt (some pz) (some c) = false := cLt_false_of _ _ hc
      have hred : scanStep cfg ⟨some a, some b, some c, k⟩
          ⟨some px, some py, some pz⟩ =
          if boxTest cfg ⟨some px, some py, some pz⟩ = true then
            (⟨some (a + px), some (b + py), cMin (some c) (some pz), k + 1⟩ :
              ScanState)
          else ⟨some a, some b, some c, k⟩ := rfl
      have hstep : scanStep cfg ⟨some a, some b, some c, k⟩
          ⟨some px, some py, some pz⟩ =
          ⟨some (a + px), some (b + py), some c, k + 1⟩ := by
        rw [hred, if_pos h, cMin, hcc, if_neg Bool.false_ne_true]
      rw [hstep, ih]
      have e1 : a + px + (n : ℚ) * px = a + ((n + 1 : ℕ) : ℚ) * px := by
        push_cast; ring
      have e2 : b + py + (n : ℚ) * py = b + ((n + 1 : ℕ) : ℚ) * py := by
        push_cast; ring
      have e3 : k + 1 + n = k + (n + 1) := by
        rw [Nat.add_assoc, Nat.add_comm 1 n]
      rw [e1, e2, e3]

/-- Scanning `m + 1` copies of a passing point whose z lies below the `1e6`
initialisation. -/
lemma computeScan_replicate_lt (cfg : BoxConfig) (px py pz : ℚ)
    (h : boxTest cfg ⟨some px, some py, some pz⟩ = true) (hz : pz < 1000000)
    (m : ℕ) :
    computeScan cfg (List.replicate (m + 1) ⟨some px, some py, some pz⟩) =
      ⟨some (px + (m : ℚ) * px), some (py + (m : ℚ) * py), some pz, 1 + m⟩ := by
  rw [computeScan, List.replicate_succ, List.foldl_cons]
  have hstep : scanStep cfg initScan ⟨some px, some py, some pz⟩ =
      ⟨some px, some py, some pz, 1⟩ := by
    rw [scanStep, initScan]
    simp [isNaNc, h, cAdd, cMin, cLt, hz]
  rw [hstep]
  exact scan_fold_replicate cfg px py pz pz h (lt_irrefl pz) m px py 1

/-- Scanning `m` copies of a passing point whose z is not below the `1e6`
initialisation: the z accumulator keeps its initial value. -/
lemma computeScan_replicate_ge (cfg : BoxConfig) (px py pz : ℚ)
    (h : boxTest cfg ⟨some px, some py, some pz⟩ = true) (hz : ¬ pz < 1000000)
    (m : ℕ) :
    computeScan cfg (List.replicate m ⟨some px, some py, some pz⟩) =
      ⟨some ((m : ℚ) * px), some ((m : ℚ) * py), some 1000000, m⟩ := by
  have := scan_fold_replicate cfg px py pz 1000000 h hz m 0 0 0
  simpa [computeScan, initScan] using this

/-- The bumper dispatch chain with the left bumper pressed and the request
flag set: 16 left-recovery commands, flag cleared. -/
lemma bumperDispatch_left (st : CtrlState) (c : VelocityCommand)
    (nl : List VelocityCommand) (h : st.bumperLeft = true)
    (hcd : st.changeDirection = true) :
    bumperDispatch st c nl =
      ({ st with changeDirection := false },
       List.replicate 16 ⟨-(1/5), -(2/5)⟩) := by
  rw [bumperDispatch, hcd]
  simp [h, recoveryLoop_true]

/-- The bumper dispatch chain with the centre bumper (and not the left one)
pressed and the request flag set: 21 copies of the regime's centre command,
flag cleared. -/
lemma bumperDispatch_center (st : CtrlState) (c : VelocityCommand)
    (nl : List VelocityCommand) (hl : st.bumperLeft = false)
    (h : st.bumperCenter = true) (hcd : st.changeDirection = true) :
    bumperDispatch st c nl =
      ({ st with changeDirection := false }, List.replicate 21 c) := by
  rw [bumperDispatch, hcd]
  simp [h, hl, recoveryLoop_true]

/-- The bumper dispatch chain with only the right bumper pressed and the
request flag set: 16 right-recovery commands, flag cleared. -/
lemma bumperDispatch_right (st : CtrlState) (c : VelocityCommand)
    (nl : List VelocityCommand) (hl : st.bumperLeft = false)
    (hc : st.bumperCenter = false) (h : st.bumperRight = true)
    (hcd : st.changeDirection = true) :
    bumperDispatch st c nl =
      ({ st with changeDirection := false },
       List.replicate 16 ⟨-(1/5), 2/5⟩) := by
  rw [bumperDispatch, hcd]
  simp [h, hl, hc, recoveryLoop_true]

/-- The bumper dispatch chain with no bumper pressed leaves the state alone
and emits the normal branch. -/
lemma bumperDispatch_none (st : CtrlState) (c : VelocityCommand)
    (nl : List VelocityCommand) (hl : st.bumperLeft = false)
    (hc : st.bumperCenter = false) (hr : st.bumperRight = false) :
    bumperDispatch st c nl = (st, nl) := by
  rw [bumperDispatch]
  simp [hl, hc, hr]

/-- The bumper dispatch chain with a pressed bumper but no active request
emits nothing and leaves the state unchanged. -/
lemma bumperDispatch_noRequest (st : CtrlState) (c : VelocityCommand)
    (nl : List VelocityCommand) (hcd : st.changeDirection = false)
    (hside : st.bumperLeft = true ∨ st.bumperCenter = true ∨
      st.bumperRight = true) :
    bumperDispatch st c nl = (st, []) := by
  obtain ⟨e, bl, bc, br, cd⟩ := st
  have hcd2 : cd = false := hcd
  subst hcd2
  rw [bumperDispatch]
  rcases hside with h | h | h
  · have h2 : bl = true := h
    subst h2
    simp [recoveryLoop_false]
  · have h2 : bc = true := h
    subst h2
    cases bl <;> simp [recoveryLoop_false]
  · have h2 : br = true := h
    subst h2
    cases bl <;> cases bc <;> simp [recoveryLoop_false]

/-- With a found centroid in the approach regime, `cloudcb` reduces to the
bumper dispatch with centre command angular `-0.5` and the approach command
as normal branch. -/
lemma cloudcb_approach (cfg : BoxConfig) (st : CtrlState)
    (cloud : List Point3D) (r : ℕ)
    (hfound : 4000 < (computeScan cfg cloud).n)
    (hz : cLt (some 0) (cSub (computeScan cfg cloud).z (some cfg.goal_z)) = true) :
    cloudcb cfg st cloud r =
      bumperDispatch st ⟨-(1/5), -(1/2)⟩
        [approachCmd (cDivNat (computeScan cfg cloud).x (computeScan cfg cloud).n)
          st.changeDirection r] := by
  rw [cloudcb]
  rw [if_pos hfound, if_pos hz]

/-- With a found centroid in the hold regime, `cloudcb` reduces to the bumper
dispatch with centre command angular `-0.4` and the hold command as normal
branch. -/
lemma cloudcb_hold (cfg : BoxConfig) (st : CtrlState)
    (cloud : List Point3D) (r : ℕ)
    (hfound : 4000 < (computeScan cfg cloud).n)
    (hz : cLt (some 0) (cSub (computeScan cfg cloud).z (some cfg.goal_z)) = false) :
    cloudcb cfg st cloud r =
      bumperDispatch st ⟨-(1/5), -(2/5)⟩
        [holdCmd (cDivNat (computeScan cfg cloud).x (computeScan cfg cloud).n) r] := by
  rw [cloudcb]
  rw [if_pos hfound, if_neg (by rw [hz]; exact Bool.false_ne_true)]

/-- With no centroid found and the controller enabled, `cloudcb` reduces to
the bumper dispatch with centre command angular `-0.5` and the straight crawl
as normal branch. -/
lemma cloudcb_noCentroid (cfg : BoxConfig) (st : CtrlState)
    (cloud : List Point3D) (r : ℕ)
    (hnf : (computeScan cfg cloud).n ≤ 4000) (he : st.enabled = true) :
    cloudcb cfg st cloud r =
      bumperDispatch st ⟨-(1/5), -(1/2)⟩ [⟨1/5, 0⟩] := by
  rw [cloudcb]
  rw [if_neg (by omega), if_pos he]

/-- With no centroid found and the controller disabled, `cloudcb` emits
nothing and leaves the state unchanged. -/
lemma cloudcb_disabled (cfg : BoxConfig) (st : CtrlState)
    (cloud : List Point3D) (r : ℕ)
    (hnf : (computeScan cfg cloud).n ≤ 4000) (he : st.enabled = false) :
    cloudcb cfg st cloud r = (st, []) := by
  rw [cloudcb]
  rw [if_neg (by omega), if_neg (by rw [he]; exact Bool.false_ne_true)]

/-- The approach command with an indecisive centroid x: forward 0.2, angular
`-0.3`, except that an active recovery request suppresses the turn. -/
lemma approachCmd_indecisive (qx : Coord) (cd : Bool) (r : ℕ)
    (h1 : cLt (some (1/5)) qx = false) (h2 : cLt qx (some (-(1/5))) = false) :
    approachCmd qx cd r = ⟨1/5, if cd then 0 else -(3/10)⟩ := by
  rw [approachCmd]
  rw [if_neg (by rw [h1]; exact Bool.false_ne_true)]
  rw [if_neg (by rw [h2]; exact Bool.false_ne_true)]
  cases cd <;> rfl

/-- The hold command with an indecisive centroid x: stop and turn `-0.3`
unconditionally. -/
lemma holdCmd_indecisive (qx : Coord) (r : ℕ)
    (h1 : cLt (some (1/5)) qx = false) (h2 : cLt qx (some (-(1/5))) = false) :
    holdCmd qx r = ⟨0, -(3/10)⟩ := by
  rw [holdCmd]
  rw [if_neg (by rw [h1]; exact Bool.false_ne_true)]
  rw [if_neg (by rw [h2]; exact Bool.false_ne_true)]
  rfl

/-- Every branch of the approach command drives forward at 0.2. -/
lemma approachCmd_linear (qx : Coord) (cd : Bool) (r : ℕ) :
    (approachCmd qx cd r).linear_x = 1/5 := by
  rw [approachCmd]
  split
  · rfl
  · split <;> rfl

/-- Every branch of the hold command has zero forward speed. -/
lemma holdCmd_linear (qx : Coord) (r : ℕ) :
    (holdCmd qx r).linear_x = 0 := by
  rw [holdCmd]
  split
  · rfl
  · split <;> rfl

/-- A point passing the box test has three finite coordinates. -/
lemma boxTest_finite (cfg : BoxConfig) (p : Point3D)
    (h : boxTest cfg p = true) :
    p.x = some (qor0 p.x) ∧ p.y = some (qor0 p.y) ∧ p.z = some (qor0 p.z) := by
  refine ⟨?_, ?_, ?_⟩
  · cases hpx : p.x with
    | none => rw [boxTest_nan cfg p (Or.inl hpx)] at h; cases h
    | some q => rfl
  · cases hpy : p.y with
    | none => rw [boxTest_nan cfg p (Or.inr (Or.inl hpy))] at h; cases h
    | some q => rfl
  · cases hpz : p.z with
    | none => rw [boxTest_nan cfg p (Or.inr (Or.inr hpz))] at h; cases h
    | some q => rfl

/-- The scan from finite accumulators, expressed over the filtered passing
points: the accumulator NaN guard never fires, so the result is the sums,
running z minimum and count of exactly the points passing the box test. -/
lemma scan_eq_filter (cfg : BoxConfig) :
    ∀ (cloud : List Point3D) (a b c : ℚ) (k : ℕ),
      List.foldl (scanStep cfg) ⟨some a, some b, some c, k⟩ cloud =
        ⟨some (a + sumX (passing cfg cloud)),
         some (b + sumY (passing cfg cloud)),
         some ((passing cfg cloud).foldl pzMin c),
         k + (passing cfg cloud).length⟩ := by
  intro cloud
  induction cloud with
  | nil => intro a b c k; simp [passing, sumX, sumY]
  | cons p rest ih =>
      intro a b c k
      rw [List.foldl_cons]
      by_cases hp : boxTest cfg p = true
      · obtain ⟨hx, hy, hz⟩ := boxTest_finite cfg p hp
        have hstep : scanStep cfg ⟨some a, some b, some c, k⟩ p =
            ⟨some (a + qor0 p.x), some (b + qor0 p.y), some (pzMin c p), k + 1⟩ := by
          rw [scanStep]
          rw [show (⟨some a, some b, some c, k⟩ : ScanState).x = some a from rfl]
          simp only [isNaNc, Bool.not_false, Bool.and_self, if_true, hp, if_pos]
          rw [hx, hy, hz]
          simp [cAdd, cMin, cLt, pzMin]
          refine ⟨by simp [qor0], by simp [qor0], ?_⟩
          split <;> rfl
        rw [hstep, ih]
        have hpass : passing cfg (p :: rest) = p :: passing cfg rest := by
          simp [passing, List.filter_cons, hp]
        rw [hpass]
        have e1 : a + qor0 p.x + sumX (passing cfg rest) =
            a + sumX (p :: passing cfg rest) := by
          simp [sumX]; ring
        have e2 : b + qor0 p.y + sumY (passing cfg rest) =
            b + sumY (p :: passing cfg rest) := by
          simp [sumY]; ring
        have e3 : (passing cfg rest).foldl pzMin (pzMin c p) =
            (p :: passing cfg rest).foldl pzMin c := by
          rw [List.foldl_cons]
        have e4 : k + 1 + (passing cfg rest).length =
            k + (p :: passing cfg rest).length := by
          simp; omega
        rw [e1, e2, e3, e4]
      · have hp2 : boxTest cfg p = false := by
          cases hb : boxTest cfg p
          · rfl
          · exact absurd hb hp
        have hstep : scanStep cfg ⟨some a, some b, some c, k⟩ p =
            ⟨some a, some b, some c, k⟩ := by
          rw [scanStep]
          simp [isNaNc, hp2]
        rw [hstep, ih]
        have hpass : passing cfg (p :: rest) = passing cfg rest := by
          simp [passing, List.filter_cons, hp2]
        rw [hpass]

/-- The whole scan, expressed over the passing points. -/
lemma computeScan_filter (cfg : BoxConfig) (cloud : List Point3D) :
    computeScan cfg cloud =
      ⟨some (sumX (passing cfg cloud)), some (sumY (passing cfg cloud)),
       some (zmin cfg cloud), (passing cfg cloud).length⟩ := by
  have := scan_eq_filter cfg cloud 0 0 1000000 0
  simpa [computeScan, initScan, zmin] using this

/-- The running z minimum never exceeds its starting value. -/
lemma pzMin_foldl_le_init :
    ∀ (l : List Point3D) (c : ℚ), l.foldl pzMin c ≤ c := by
  intro l
  induction l with
  | nil => intro c; exact le_refl c
  | cons p rest ih =>
      intro c
      rw [List.foldl_cons]
      refine le_trans (ih (pzMin c p)) ?_
      rw [pzMin]
      split
      · exact le_of_lt (by assumption)
      · exact le_refl c

/-- The running z minimum is a lower bound of the z values seen. -/
lemma pzMin_foldl_le_mem :
    ∀ (l : List Point3D) (c : ℚ) (p : Point3D), p ∈ l →
      l.foldl pzMin c ≤ qor0 p.z := by
  intro l
  induction l with
  | nil => intro c p hp; cases hp
  | cons q rest ih =>
      intro c p hp
      rw [List.foldl_cons]
      rcases List.mem_cons.mp hp with h | h
      · subst h
        refine le_trans (pzMin_foldl_le_init rest (pzMin c p)) ?_
        rw [pzMin]
        split
        · exact le_refl _
        · exact le_of_not_lt (by assumption)
      · exact ih (pzMin c q) p h

/-- The running z minimum is its starting value or one of the z values
seen. -/
lemma pzMin_foldl_attained :
    ∀ (l : List Point3D) (c : ℚ),
      l.foldl pzMin c = c ∨ ∃ p ∈ l, qor0 p.z = l.foldl pzMin c := by
  intro l
  induction l with
  | nil => intro c; exact Or.inl rfl
  | cons q rest ih =>
      intro c
      rw [List.foldl_cons]
      rcases ih (pzMin c q) with h | h
      · rw [h, pzMin]
        split
        · exact Or.inr ⟨q, List.mem_cons_self q rest, rfl⟩
        · exact Or.inl rfl
      · obtain ⟨p, hp, hv⟩ := h
        exact Or.inr ⟨p, List.mem_cons_of_mem q hp, hv⟩

/-- The y band of the test points: 0.3 lies strictly between 0.1 and 0.5. -/
lemma y_pass_lo : (1:ℚ)/10 < -(-(3/10) : ℚ) := by norm_num

/-- The y band of the test points, upper half. -/
lemma y_pass_hi : -(-(3/10) : ℚ) < (1:ℚ)/2 := by norm_num

/-- A y of +0.3 fails the lower bound after the sign inversion. -/
lemma y_fail_lo : ¬ (1:ℚ)/10 < -((3:ℚ)/10) := by norm_num

/-- x = 0 is below the default upper x bound. -/
lemma x_zero_lt : (0:ℚ) < 1/5 := by norm_num

/-- x = 0 is above the default lower x bound. -/
lemma x_zero_gt : -(1/5 : ℚ) < 0 := by norm_num

/-- x = 0.5 is below the widened upper x bound. -/
lemma x_half_ltW : (1:ℚ)/2 < 1 := by norm_num

/-- x = 0.5 is above the widened lower x bound. -/
lemma x_half_gtW : (-1 : ℚ) < 1/2 := by norm_num

/-- x = 0 is below the widened upper x bound. -/
lemma x_zero_ltW : (0:ℚ) < 1 := by norm_num

/-- x = 0 is above the widened lower x bound. -/
lemma x_zero_gtW : (-1 : ℚ) < 0 := by norm_num

/-- z = 0.7 is inside the default z bound. -/
lemma z_seven_lt : (7:ℚ)/10 < 4/5 := by norm_num

/-- z = 0.5 is inside the default z bound. -/
lemma z_half_lt : (1:ℚ)/2 < 4/5 := by norm_num

/-- z = 2e6 is inside the raised z bound. -/
lemma z_far_lt : (2000000 : ℚ) < 3000000 := by norm_num

/-- Range 0.7 exceeds the goal range 0.6. -/
lemma z_seven_gt_goal : (0:ℚ) < 7/10 - 3/5 := by norm_num

/-- Range 0.5 does not exceed the goal range 0.6. -/
lemma z_half_le_goal : ¬ (0:ℚ) < 1/2 - 3/5 := by norm_num

/-- Scan of the 4001-point approach-regime frame. -/
lemma scan_centerCloud :
    computeScan defaultCfg centerCloud =
      ⟨some 0, some (-(12003/10)), some (7/10), 4001⟩ := by
  have hbox : boxTest defaultCfg ⟨some 0, some (-(3/10)), some (7/10)⟩ = true :=
    boxTest_true_of defaultCfg 0 (-(3/10)) (7/10) y_pass_lo y_pass_hi
      x_zero_lt x_zero_gt z_seven_lt
  simp only [centerCloud, centerPoint]
  rw [show (4001 : ℕ) = 4000 + 1 from rfl,
    computeScan_replicate_lt defaultCfg 0 (-(3/10)) (7/10) hbox (by norm_num) 4000]
  norm_num

/-- Scan of the 4001-point hold-regime frame. -/
lemma scan_holdCloud :
    computeScan defaultCfg holdCloud =
      ⟨some 0, some (-(12003/10)), some (1/2), 4001⟩ := by
  have hbox : boxTest defaultCfg ⟨some 0, some (-(3/10)), some (1/2)⟩ = true :=
    boxTest_true_of defaultCfg 0 (-(3/10)) (1/2) y_pass_lo y_pass_hi
      x_zero_lt x_zero_gt z_half_lt
  simp only [holdCloud, holdPoint]
  rw [show (4001 : ℕ) = 4000 + 1 from rfl,
    computeScan_replicate_lt defaultCfg 0 (-(3/10)) (1/2) hbox (by norm_num) 4000]
  norm_num

/-- Scan of the 4001-point decisive-right frame under the widened box. -/
lemma scan_rightCloud :
    computeScan cfgWide rightCloud =
      ⟨some (4001/2), some (-(12003/10)), some (7/10), 4001⟩ := by
  have hbox : boxTest cfgWide ⟨some (1/2), some (-(3/10)), some (7/10)⟩ = true :=
    boxTest_true_of cfgWide (1/2) (-(3/10)) (7/10) y_pass_lo y_pass_hi
      x_half_ltW x_half_gtW z_seven_lt
  simp only [rightCloud, rightPoint]
  rw [show (4001 : ℕ) = 4000 + 1 from rfl,
    computeScan_replicate_lt cfgWide (1/2) (-(3/10)) (7/10) hbox (by norm_num) 4000]
  norm_num

/-- Scan of the approach-regime frame under the widened box. -/
lemma scan_centerCloud_wide :
    computeScan cfgWide centerCloud =
      ⟨some 0, some (-(12003/10)), some (7/10), 4001⟩ := by
  have hbox : boxTest cfgWide ⟨some 0, some (-(3/10)), some (7/10)⟩ = true :=
    boxTest_true_of cfgWide 0 (-(3/10)) (7/10) y_pass_lo y_pass_hi
      x_zero_ltW x_zero_gtW z_seven_lt
  simp only [centerCloud, centerPoint]
  rw [show (4001 : ℕ) = 4000 + 1 from rfl,
    computeScan_replicate_lt cfgWide 0 (-(3/10)) (7/10) hbox (by norm_num) 4000]
  norm_num

/-- Scan of the 4001-point frame whose passing z values lie above the `1e6`
z-accumulator initialisation: the tracked minimum stays at `1e6`. -/
lemma scan_farCloud :
    computeScan farCfg farCloud =
      ⟨some 0, some (-(12003/10)), some 1000000, 4001⟩ := by
  have hbox : boxTest farCfg ⟨some 0, some (-(3/10)), some 2000000⟩ = true :=
    boxTest_true_of farCfg 0 (-(3/10)) 2000000 y_pass_lo y_pass_hi
      x_zero_lt x_zero_gt z_far_lt
  simp only [farCloud, farPoint]
  rw [computeScan_replicate_ge farCfg 0 (-(3/10)) 2000000 hbox (by norm_num) 4001]
  norm_num

/-- The approach-regime frame has a found centroid. -/
lemma centerCloud_found : 4000 < (computeScan defaultCfg centerCloud).n := by
  rw [scan_centerCloud]
  norm_num

/-- The approach-regime frame is farther than the goal range. -/
lemma centerCloud_zgt :
    cLt (some 0) (cSub (computeScan defaultCfg centerCloud).z
      (some defaultCfg.goal_z)) = true := by
  rw [scan_centerCloud]
  show cLt (some 0) (cSub (some (7/10)) (some defaultCfg.goal_z)) = true
  rw [cSub_some]
  exact cLt_true_of _ _ z_seven_gt_goal

/-- The approach-regime frame has centroid x = 0. -/
lemma centerCloud_qx :
    cDivNat (computeScan defaultCfg centerCloud).x
      (computeScan defaultCfg centerCloud).n = some 0 := by
  rw [scan_centerCloud]
  show cDivNat (some 0) 4001 = some 0
  rw [cDivNat_some]
  norm_num

/-- The hold-regime frame has a found centroid. -/
lemma holdCloud_found : 4000 < (computeScan defaultCfg holdCloud).n := by
  rw [scan_holdCloud]
  norm_num

/-- The hold-regime frame is at most the goal range. -/
lemma holdCloud_zle :
    cLt (some 0) (cSub (computeScan defaultCfg holdCloud).z
      (some defaultCfg.goal_z)) = false := by
  rw [scan_holdCloud]
  show cLt (some 0) (cSub (some (1/2)) (some defaultCfg.goal_z)) = false
  rw [cSub_some]
  exact cLt_false_of _ _ z_half_le_goal

/-- The decisive-right frame has a found centroid. -/
lemma rightCloud_found : 4000 < (computeScan cfgWide rightCloud).n := by
  rw [scan_rightCloud]
  norm_num

/-- The decisive-right frame is farther than the goal range. -/
lemma rightCloud_zgt :
    cLt (some 0) (cSub (computeScan cfgWide rightCloud).z
      (some cfgWide.goal_z)) = true := by
  rw [scan_rightCloud]
  show cLt (some 0) (cSub (some (7/10)) (some cfgWide.goal_z)) = true
  rw [cSub_some]
  exact cLt_true_of _ _ z_seven_gt_goal

/-- The decisive-right frame has centroid x = 0.5. -/
lemma rightCloud_qx :
    cDivNat (computeScan cfgWide rightCloud).x
      (computeScan cfgWide rightCloud).n = some (1/2) := by
  rw [scan_rightCloud]
  show cDivNat (some (4001/2)) 4001 = some (1/2)
  rw [cDivNat_some]
  norm_num

/-- The approach-regime frame under the widened box: found centroid. -/
lemma centerCloudW_found : 4000 < (computeScan cfgWide centerCloud).n := by
  rw [scan_centerCloud_wide]
  norm_num

/-- The approach-regime frame under the widened box: beyond goal range. -/
lemma centerCloudW_zgt :
    cLt (some 0) (cSub (computeScan cfgWide centerCloud).z
      (some cfgWide.goal_z)) = true := by
  rw [scan_centerCloud_wide]
  show cLt (some 0) (cSub (some (7/10)) (some cfgWide.goal_z)) = true
  rw [cSub_some]
  exact cLt_true_of _ _ z_seven_gt_goal

/-- The approach-regime frame under the widened box: centroid x = 0. -/
lemma centerCloudW_qx :
    cDivNat (computeScan cfgWide centerCloud).x
      (computeScan cfgWide centerCloud).n = some 0 := by
  rw [scan_centerCloud_wide]
  show cDivNat (some 0) 4001 = some 0
  rw [cDivNat_some]
  norm_num

/-- Centroid x = 0 is indecisive on the right. -/
lemma qx_zero_not_right : cLt (some (1/5)) (some (0 : ℚ)) = false :=
  cLt_false_of _ _ (by norm_num)

/-- Centroid x = 0 is indecisive on the left. -/
lemma qx_zero_not_left : cLt (some (0 : ℚ)) (some (-(1/5))) = false :=
  cLt_false_of _ _ (by norm_num)

/-! ### Claim theorems -/

/-- C6: for every input frame and every point in it, a point with a NaN in
any of its x, y, z coordinates contributes nothing: deleting it from the
frame leaves the scan's sums, tracked minimum z and passing-point count, and
hence the resulting centroid, unchanged. -/
theorem nan_point_contributes_nothing (cfg : BoxConfig)
    (pre post : List Point3D) (p : Point3D)
    (h : p.x = none ∨ p.y = none ∨ p.z = none) :
    computeScan cfg (pre ++ p :: post) = computeScan cfg (pre ++ post) ∧
    centroidOf cfg (pre ++ p :: post) = centroidOf cfg (pre ++ post) := by
  have hscan : computeScan cfg (pre ++ p :: post) = computeScan cfg (pre ++ post) := by
    rw [computeScan, computeScan, List.foldl_append, List.foldl_append,
      List.foldl_cons, scanStep_nan cfg _ p h]
  refine ⟨hscan, ?_⟩
  simp only [centroidOf, hscan]

/-- Witness for the C6 theorem at a concrete frame holding one NaN point. -/
theorem nan_point_contributes_nothing_witness :
    computeScan defaultCfg ([] ++ (⟨none, some 0, some 0⟩ : Point3D) :: []) =
      computeScan defaultCfg ([] ++ []) ∧
    centroidOf defaultCfg ([] ++ (⟨none, some 0, some 0⟩ : Point3D) :: []) =
      centroidOf defaultCfg ([] ++ []) :=
  nan_point_contributes_nothing defaultCfg [] [] ⟨none, some 0, some 0⟩ (Or.inl rfl)

/-- C7: the box membership test applies a sign inversion to y: a finite point
passes iff -y > min_y, -y < max_y, x < max_x, x > min_x and z < max_z; with
the default bounds (min_y = 0.1, max_y = 0.5) a point with y = -0.3 passes
and a point with y = +0.3 fails. -/
theorem box_membership_sign :
    (∀ (cfg : BoxConfig) (x y z : ℚ),
      (boxTest cfg ⟨some x, some y, some z⟩ = true ↔
        (cfg.min_y < -y ∧ -y < cfg.max_y ∧ x < cfg.max_x ∧ cfg.min_x < x ∧
          z < cfg.max_z))) ∧
    boxTest defaultCfg ⟨some 0, some (-(3/10)), some (1/2)⟩ = true ∧
    boxTest defaultCfg ⟨some 0, some (3/10), some (1/2)⟩ = false := by
  have hiff : ∀ (cfg : BoxConfig) (x y z : ℚ),
      (boxTest cfg ⟨some x, some y, some z⟩ = true ↔
        (cfg.min_y < -y ∧ -y < cfg.max_y ∧ x < cfg.max_x ∧ cfg.min_x < x ∧
          z < cfg.max_z)) := by
    intro cfg x y z
    simp only [boxTest, cLt, cNeg, Bool.and_eq_true, decide_eq_true_eq,
      and_assoc]
  refine ⟨hiff, ?_, ?_⟩
  · exact boxTest_true_of defaultCfg 0 (-(3/10)) (1/2) y_pass_lo y_pass_hi
      x_zero_lt x_zero_gt z_half_lt
  · refine Bool.eq_false_iff.mpr (fun h => ?_)
    have h2 := (hiff defaultCfg 0 (3/10) (1/2)).mp h
    exact y_fail_lo h2.1

/-- C8: recovery requests are edge-triggered: a Pressed event for an
already-pressed side is a silent no-op that raises nothing, a Pressed event
for a released side raises a request and records the side as pressed; two
consecutive Pressed events for Left raise exactly one request, and Pressed,
Released, Pressed raise exactly two. -/
theorem bumper_edge_trigger :
    (∀ (st : CtrlState) (e : BumperEvent), e.pressed = true →
      (sideFlag st e.side = true →
        bumperEventCB st e = st ∧ raisesRequest st e = false) ∧
      (sideFlag st e.side = false →
        raisesRequest st e = true ∧ sideFlag (bumperEventCB st e) e.side = true ∧
        (bumperEventCB st e).changeDirection = true)) ∧
    (∀ st : CtrlState, st.bumperLeft = false →
      raiseCount st [⟨.left, true⟩, ⟨.left, true⟩] = 1 ∧
      raiseCount st [⟨.left, true⟩, ⟨.left, false⟩, ⟨.left, true⟩] = 2) := by
  constructor
  · rintro st ⟨side, pressed⟩ hp
    have hp2 : pressed = true := hp
    subst hp2
    cases side <;>
      exact ⟨fun hs => by simp_all [bumperEventCB, raisesRequest, sideFlag],
        fun hs => by simp_all [bumperEventCB, raisesRequest, sideFlag]⟩
  · intro st h
    constructor <;>
      simp [raiseCount, raisesRequest, bumperEventCB, sideFlag, h]

/-- Witness for the C8 theorem from the initial controller state. -/
theorem bumper_edge_trigger_witness :
    raiseCount wanderSt [⟨.left, true⟩, ⟨.left, true⟩] = 1 ∧
    raiseCount wanderSt [⟨.left, true⟩, ⟨.left, false⟩, ⟨.left, true⟩] = 2 :=
  bumper_edge_trigger.2 wanderSt rfl

/-- C9: the enable/disable request endpoint: a Stopped request while enabled
emits exactly one all-zero command and disables; a Follow request while
disabled enables and emits nothing; the response result is OK in every
case. -/
theorem change_mode_behavior (st : CtrlState) (req : FollowRequest) :
    (st.enabled = true → req = .stopped →
      changeModeSrvCb st req = ({ st with enabled := false }, [⟨0, 0⟩], .ok)) ∧
    (st.enabled = false → req = .follow →
      changeModeSrvCb st req = ({ st with enabled := true }, [], .ok)) ∧
    (changeModeSrvCb st req).2.2 = .ok := by
  refine ⟨?_, ?_, ?_⟩
  · intro he hr
    rw [changeModeSrvCb, if_pos ⟨he, hr⟩]
  · intro he hr
    rw [changeModeSrvCb, if_neg (by simp [he]), if_pos ⟨he, hr⟩]
  · rcases he : st.enabled <;> rcases hr : req <;>
      simp [changeModeSrvCb, he, hr]

/-- Witness for the C9 theorem: stopping from the enabled idle state. -/
theorem change_mode_behavior_witness :
    changeModeSrvCb ⟨true, false, false, false, false⟩ .stopped =
      (⟨false, false, false, false, false⟩, [⟨0, 0⟩], .ok) :=
  (change_mode_behavior ⟨true, false, false, false, false⟩ .stopped).1 rfl rfl

/-- C10: on any frame where some bumper side is pressed but no recovery
request is active (the tick budget was exhausted while the bumper stayed
held), the controller emits no velocity command at all and leaves its state
unchanged -- in the found-centroid regimes as well as the no-centroid
path. -/
theorem pressed_without_request_silent (cfg : BoxConfig) (st : CtrlState)
    (cloud : List Point3D) (r : ℕ)
    (hcd : st.changeDirection = false)
    (hside : st.bumperLeft = true ∨ st.bumperCenter = true ∨
      st.bumperRight = true) :
    cloudcb cfg st cloud r = (st, []) := by
  have hbd : ∀ c nl, bumperDispatch st c nl = (st, []) := fun c nl =>
    bumperDispatch_noRequest st c nl hcd hside
  simp only [cloudcb]
  split_ifs <;> first | exact hbd _ _ | rfl

/-- Witness for the C10 theorem: left bumper held, budget exhausted, empty
frame. -/
theorem pressed_without_request_silent_witness :
    cloudcb defaultCfg ⟨true, true, false, false, false⟩ [] 0 =
      (⟨true, true, false, false, false⟩, []) :=
  pressed_without_request_silent defaultCfg ⟨true, true, false, false, false⟩ [] 0
    rfl (Or.inl rfl)

/-- The bumper dispatch never reads the enabled flag: its commands and its
recovery-flag update are unchanged when the flag is overwritten. -/
lemma bumperDispatch_enabled_irrel (st : CtrlState) (e : Bool)
    (c : VelocityCommand) (nl : List VelocityCommand) :
    (bumperDispatch { st with enabled := e } c nl).2 =
      (bumperDispatch st c nl).2 ∧
    (bumperDispatch { st with enabled := e } c nl).1.changeDirection =
      (bumperDispatch st c nl).1.changeDirection := by
  cases st with
  | mk en bl bc br cd =>
      cases bl <;> cases bc <;> cases br <;> exact ⟨rfl, rfl⟩

/-- With a found centroid, `cloudcb` never reads the enabled flag. -/
lemma cloudcb_enabled_irrel_found (cfg : BoxConfig) (st : CtrlState)
    (cloud : List Point3D) (r : ℕ) (e : Bool)
    (hfound : 4000 < (computeScan cfg cloud).n) :
    (cloudcb cfg { st with enabled := e } cloud r).2 =
      (cloudcb cfg st cloud r).2 ∧
    (cloudcb cfg { st with enabled := e } cloud r).1.changeDirection =
      (cloudcb cfg st cloud r).1.changeDirection := by
  rcases hz : cLt (some 0) (cSub (computeScan cfg cloud).z (some cfg.goal_z)) with _ | _
  · rw [cloudcb_hold cfg _ cloud r hfound hz, cloudcb_hold cfg st cloud r hfound hz]
    exact bumperDispatch_enabled_irrel st e _ _
  · rw [cloudcb_approach cfg _ cloud r hfound hz,
      cloudcb_approach cfg st cloud r hfound hz]
    have hcd : ({ st with enabled := e } : CtrlState).changeDirection =
        st.changeDirection := rfl
    rw [hcd]
    exact bumperDispatch_enabled_irrel st e _ _

/-- C2 (amended): EnabledFlag is consulted only in the no-centroid branch:
with EnabledFlag false and no centroid found, no command at all is emitted
(not even a bumper-recovery one); when a centroid is found, the emitted
commands and the recovery-flag update are identical whether the controller
is enabled or disabled, so following, holding and recovery all still run
while disabled. -/
theorem enabled_gates_only_no_centroid (cfg : BoxConfig) (st : CtrlState)
    (cloud : List Point3D) (r : ℕ) :
    ((computeScan cfg cloud).n ≤ 4000 → st.enabled = false →
      cloudcb cfg st cloud r = (st, [])) ∧
    (4000 < (computeScan cfg cloud).n →
      (cloudcb cfg { st with enabled := true } cloud r).2 =
        (cloudcb cfg { st with enabled := false } cloud r).2 ∧
      (cloudcb cfg { st with enabled := true } cloud r).1.changeDirection =
        (cloudcb cfg { st with enabled := false } cloud r).1.changeDirection) := by
  constructor
  · exact fun hnf he => cloudcb_disabled cfg st cloud r hnf he
  · intro hfound
    have h1 := cloudcb_enabled_irrel_found cfg st cloud r true hfound
    have h2 := cloudcb_enabled_irrel_found cfg st cloud r false hfound
    exact ⟨h1.1.trans h2.1.symm, h1.2.trans h2.2.symm⟩

/-- Witness for the C2 theorem: disabled, empty frame, nothing emitted. -/
theorem enabled_gates_only_no_centroid_witness :
    cloudcb defaultCfg wanderStD [] 0 = (wanderStD, []) :=
  (enabled_gates_only_no_centroid defaultCfg wanderStD [] 0).1
    (by simp [computeScan, initScan]) rfl

/-- C2 counterexample: with the controller disabled, a frame with a found
centroid still emits a forward-motion following command (linear 0.2); and
with no centroid, a pressed bumper with an active recovery request emits no
recovery command at all while disabled. -/
theorem disabled_centroid_emits_cex :
    wanderStD.enabled = false ∧
    (cloudcb defaultCfg wanderStD centerCloud 0).2 = [⟨1/5, -(3/10)⟩] ∧
    (cloudcb defaultCfg (⟨false, true, false, false, true⟩ : CtrlState) [] 0).2 =
      [] := by
  refine ⟨rfl, ?_, ?_⟩
  · rw [cloudcb_approach defaultCfg wanderStD centerCloud 0 centerCloud_found
      centerCloud_zgt, bumperDispatch_none _ _ _ rfl rfl rfl, centerCloud_qx,
      approachCmd_indecisive _ _ _ qx_zero_not_right qx_zero_not_left]
    rfl
  · rw [cloudcb_disabled defaultCfg _ [] 0 (by simp [computeScan, initScan]) rfl]

/-- C3 (amended): the turn-direction flag is a local variable re-initialised
to 0 (left) at the start of every frame, so no decisive turn persists across
frames: every frame whose centroid x lies in [-0.2, 0.2] turns with angular
-0.3 regardless of earlier frames (in the approach regime the turn is
suppressed to 0 while a recovery request is pending; the hold regime always
turns -0.3). -/
theorem indecisive_turn_fixed (cfg : BoxConfig) (st : CtrlState)
    (cloud : List Point3D) (r : ℕ)
    (hfound : 4000 < (computeScan cfg cloud).n)
    (hl : st.bumperLeft = false) (hc : st.bumperCenter = false)
    (hr : st.bumperRight = false)
    (hx1 : cLt (some (1/5))
      (cDivNat (computeScan cfg cloud).x (computeScan cfg cloud).n) = false)
    (hx2 : cLt (cDivNat (computeScan cfg cloud).x (computeScan cfg cloud).n)
      (some (-(1/5))) = false) :
    (cLt (some 0) (cSub (computeScan cfg cloud).z (some cfg.goal_z)) = true →
      (cloudcb cfg st cloud r).2 =
        [⟨1/5, if st.changeDirection then 0 else -(3/10)⟩]) ∧
    (cLt (some 0) (cSub (computeScan cfg cloud).z (some cfg.goal_z)) = false →
      (cloudcb cfg st cloud r).2 = [⟨0, -(3/10)⟩]) := by
  constructor
  · intro hz
    rw [cloudcb_approach cfg st cloud r hfound hz,
      bumperDispatch_none _ _ _ hl hc hr,
      approachCmd_indecisive _ _ _ hx1 hx2]
  · intro hz
    rw [cloudcb_hold cfg st cloud r hfound hz,
      bumperDispatch_none _ _ _ hl hc hr,
      holdCmd_indecisive _ _ hx1 hx2]

/-- Witness for the C3 theorem: an indecisive approach frame with no pending
recovery turns -0.3. -/
theorem indecisive_turn_fixed_witness :
    (cloudcb defaultCfg wanderSt centerCloud 0).2 = [⟨1/5, -(3/10)⟩] := by
  have h := (indecisive_turn_fixed defaultCfg wanderSt centerCloud 0
    centerCloud_found rfl rfl rfl
    (by rw [centerCloud_qx]; exact qx_zero_not_right)
    (by rw [centerCloud_qx]; exact qx_zero_not_left)).1 centerCloud_zgt
  simpa [wanderSt] using h

/-- C3 counterexample: a decisive right frame (centroid x = 0.5 under the
widened box, which per the claim should bias the next indecisive frame to
+0.3) is followed by an indecisive frame that still turns -0.3, and -0.3 is
also what a first indecisive frame emits (not the claimed +0.3 default). -/
theorem direction_not_persistent_cex :
    (cloudcb cfgWide wanderSt rightCloud 0).2 = [⟨1/5, 3/10⟩] ∧
    (cloudcb cfgWide (cloudcb cfgWide wanderSt rightCloud 0).1 centerCloud 0).2 =
      [⟨1/5, -(3/10)⟩] ∧
    (⟨1/5, -(3/10)⟩ : VelocityCommand) ≠ ⟨1/5, 3/10⟩ := by
  have hcmd1 : approachCmd (some (1/2)) wanderSt.changeDirection 0 =
      ⟨1/5, 3/10⟩ := by
    rw [approachCmd, if_pos (cLt_true_of (1/5) (1/2) (by norm_num))]
    norm_num
  have hstate : cloudcb cfgWide wanderSt rightCloud 0 =
      (wanderSt, [⟨1/5, 3/10⟩]) := by
    rw [cloudcb_approach cfgWide wanderSt rightCloud 0 rightCloud_found
      rightCloud_zgt, bumperDispatch_none _ _ _ rfl rfl rfl, rightCloud_qx, hcmd1]
  refine ⟨by rw [hstate], ?_, ?_⟩
  · rw [hstate]
    rw [cloudcb_approach cfgWide wanderSt centerCloud 0 centerCloudW_found
      centerCloudW_zgt, bumperDispatch_none _ _ _ rfl rfl rfl, centerCloudW_qx,
      approachCmd_indecisive _ _ _ qx_zero_not_right qx_zero_not_left]
    rfl
  · intro h
    have := congrArg VelocityCommand.angular_z h
    norm_num at this

/-- C4 (amended): a Released event clears the side's pressed state and does
not clear an active RecoveryRequest flag; but the maneuver runs on a frame
only when some side is still pressed: if every side is released when the
frame arrives, the frame emits only normal output (no command with the
recovery reverse speed -0.2), and the request stays pending. -/
theorem release_keeps_request_pending (cfg : BoxConfig) (st : CtrlState)
    (s : BumperSide) (cloud : List Point3D) (r : ℕ) :
    ((bumperEventCB st ⟨s, false⟩).changeDirection = st.changeDirection ∧
      sideFlag (bumperEventCB st ⟨s, false⟩) s = false) ∧
    (st.bumperLeft = false → st.bumperCenter = false → st.bumperRight = false →
      st.changeDirection = true →
      (cloudcb cfg st cloud r).1.changeDirection = true ∧
      ∀ c ∈ (cloudcb cfg st cloud r).2, c.linear_x ≠ -(1/5)) := by
  constructor
  · cases s <;> exact ⟨rfl, rfl⟩
  · intro hl hc hr hcd
    by_cases h1 : 4000 < (computeScan cfg cloud).n
    · rcases hz : cLt (some 0) (cSub (computeScan cfg cloud).z (some cfg.goal_z)) with _ | _
      · rw [cloudcb_hold cfg st cloud r h1 hz, bumperDispatch_none _ _ _ hl hc hr]
        refine ⟨hcd, ?_⟩
        intro c hcm
        have hceq : c = holdCmd
            (cDivNat (computeScan cfg cloud).x (computeScan cfg cloud).n) r := by
          simpa using hcm
        rw [hceq, holdCmd_linear]
        norm_num
      · rw [cloudcb_approach cfg st cloud r h1 hz,
          bumperDispatch_none _ _ _ hl hc hr]
        refine ⟨hcd, ?_⟩
        intro c hcm
        have hceq : c = approachCmd
            (cDivNat (computeScan cfg cloud).x (computeScan cfg cloud).n)
            st.changeDirection r := by
          simpa using hcm
        rw [hceq, approachCmd_linear]
        norm_num
    · rcases he : st.enabled with _ | _
      · rw [cloudcb_disabled cfg st cloud r (by omega) he]
        exact ⟨hcd, by intro c hcm; cases hcm⟩
      · rw [cloudcb_noCentroid cfg st cloud r (by omega) he,
          bumperDispatch_none _ _ _ hl hc hr]
        refine ⟨hcd, ?_⟩
        intro c hcm
        have hceq : c = ⟨1/5, 0⟩ := by simpa using hcm
        rw [hceq]
        norm_num

/-- Witness for the C4 theorem: all sides released, request pending, empty
frame. -/
theorem release_keeps_request_pending_witness :
    (bumperEventCB cdSt ⟨.left, false⟩).changeDirection = cdSt.changeDirection ∧
    sideFlag (bumperEventCB cdSt ⟨.left, false⟩) .left = false ∧
    (cloudcb defaultCfg cdSt [] 0).1.changeDirection = true ∧
    ∀ c ∈ (cloudcb defaultCfg cdSt [] 0).2, c.linear_x ≠ -(1/5) := by
  have h := release_keeps_request_pending defaultCfg cdSt .left [] 0
  exact ⟨h.1.1, h.1.2, (h.2 rfl rfl rfl rfl).1, (h.2 rfl rfl rfl rfl).2⟩

/-- C4 counterexample: press Left (raises a request), release it before any
frame arrives; the next frame emits the normal crawl command instead of any
recovery command, and the request is still pending: the maneuver never ran,
let alone to completion of its tick budget. -/
theorem release_stalls_pending_recovery_cex :
    c4Pressed.changeDirection = true ∧
    c4Released.changeDirection = true ∧
    c4Released.bumperLeft = false ∧
    (cloudcb defaultCfg c4Released [] 0).2 = [⟨1/5, 0⟩] ∧
    (cloudcb defaultCfg c4Released [] 0).1.changeDirection = true := by
  have hc4 : c4Released = (⟨true, false, false, false, true⟩ : CtrlState) := rfl
  refine ⟨rfl, rfl, rfl, ?_, ?_⟩
  · rw [hc4, cloudcb_noCentroid defaultCfg _ [] 0 (by simp [computeScan, initScan]) rfl,
      bumperDispatch_none _ _ _ rfl rfl rfl]
  · rw [hc4, cloudcb_noCentroid defaultCfg _ [] 0 (by simp [computeScan, initScan]) rfl,
      bumperDispatch_none _ _ _ rfl rfl rfl]

/-- C5 (amended): if at most 4000 points pass the box test the centroid is
not found, regardless of point values; if more than 4000 pass, it is found,
its x and y equal the arithmetic means of the passing points' x and y, and
its z_min equals the minimum of the 1e6 accumulator initialisation and the
passing points' z values.  (This is the minimum passing z whenever
max_z ≤ 1e6, every passing z being below max_z.) -/
theorem centroid_characterization (cfg : BoxConfig) (cloud : List Point3D) :
    ((passing cfg cloud).length ≤ 4000 → (centroidOf cfg cloud).found = false) ∧
    (4000 < (passing cfg cloud).length →
      (centroidOf cfg cloud).found = true ∧
      (centroidOf cfg cloud).x =
        some (sumX (passing cfg cloud) / (passing cfg cloud).length) ∧
      (centroidOf cfg cloud).y =
        some (sumY (passing cfg cloud) / (passing cfg cloud).length) ∧
      (centroidOf cfg cloud).z_min = some (zmin cfg cloud) ∧
      zmin cfg cloud ≤ 1000000 ∧
      (∀ p ∈ passing cfg cloud, zmin cfg cloud ≤ qor0 p.z) ∧
      (zmin cfg cloud = 1000000 ∨
        ∃ p ∈ passing cfg cloud, qor0 p.z = zmin cfg cloud)) := by
  have hs := computeScan_filter cfg cloud
  constructor
  · intro hle
    simp only [centroidOf, hs]
    rw [if_neg (by simpa using hle : ¬ 4000 < (passing cfg cloud).length)]
  · intro hgt
    simp only [centroidOf, hs]
    rw [if_pos hgt]
    refine ⟨rfl, by simp [cDivNat], by simp [cDivNat], rfl, ?_, ?_, ?_⟩
    · exact pzMin_foldl_le_init (passing cfg cloud) 1000000
    · intro p hp
      exact pzMin_foldl_le_mem (passing cfg cloud) 1000000 p hp
    · exact pzMin_foldl_attained (passing cfg cloud) 1000000

/-- Witness for the C5 theorem: the empty frame yields no centroid. -/
theorem centroid_characterization_witness :
    (centroidOf defaultCfg []).found = false ∧
    (passing defaultCfg []).length ≤ 4000 :=
  ⟨(centroid_characterization defaultCfg []).1 (by simp [passing]),
    by simp [passing]⟩

/-- C5 counterexample: with max_z raised above the 1e6 z-accumulator
initialisation, a frame of 4001 identical passing points at z = 2e6 yields a
found centroid whose z_min is 1e6 -- not the minimum z among passing points,
which is 2e6. -/
theorem zmin_floor_cex :
    (centroidOf farCfg farCloud).found = true ∧
    (centroidOf farCfg farCloud).z_min = some 1000000 ∧
    (∀ p ∈ farCloud, boxTest farCfg p = true ∧ p.z = some 2000000) ∧
    ((1000000 : ℚ) ≠ 2000000) := by
  refine ⟨?_, ?_, ?_, by norm_num⟩
  · simp only [centroidOf, scan_farCloud]
    rw [if_pos (by norm_num : (4000 : ℕ) < 4001)]
  · simp only [centroidOf, scan_farCloud]
    rw [if_pos (by norm_num : (4000 : ℕ) < 4001)]
  · intro p hp
    have hp2 : p = farPoint := List.eq_of_mem_replicate hp
    subst hp2
    exact ⟨boxTest_true_of farCfg 0 (-(3/10)) 2000000 y_pass_lo y_pass_hi
      x_zero_lt x_zero_gt z_far_lt, rfl⟩

/-- C1 (amended): while a RecoveryRequest is active and a bumper side is
pressed, the frame emits only that side's recovery commands and then clears
the request (no other command that frame, so normal output resumes on later
frames); however each loop publishes budget+1 commands -- 16 for Left and
Right, 21 for Center, the counter being checked after publishing -- the
found-centroid hold regime publishes angular -0.4 for Center rather than
-0.5, and in the no-centroid regime recovery runs only while the controller
is enabled (otherwise nothing is emitted and the request stays pending). -/
theorem recovery_frame_output (cfg : BoxConfig) (st : CtrlState)
    (cloud : List Point3D) (r : ℕ) (hcd : st.changeDirection = true) :
    (st.bumperLeft = true →
      ((4000 < (computeScan cfg cloud).n ∨ st.enabled = true) →
        (cloudcb cfg st cloud r).2 = List.replicate 16 ⟨-(1/5), -(2/5)⟩ ∧
        (cloudcb cfg st cloud r).1.changeDirection = false) ∧
      ((computeScan cfg cloud).n ≤ 4000 → st.enabled = false →
        cloudcb cfg st cloud r = (st, []))) ∧
    (st.bumperLeft = false → st.bumperCenter = true →
      (4000 < (computeScan cfg cloud).n →
        cLt (some 0) (cSub (computeScan cfg cloud).z (some cfg.goal_z)) = true →
        (cloudcb cfg st cloud r).2 = List.replicate 21 ⟨-(1/5), -(1/2)⟩ ∧
        (cloudcb cfg st cloud r).1.changeDirection = false) ∧
      (4000 < (computeScan cfg cloud).n →
        cLt (some 0) (cSub (computeScan cfg cloud).z (some cfg.goal_z)) = false →
        (cloudcb cfg st cloud r).2 = List.replicate 21 ⟨-(1/5), -(2/5)⟩ ∧
        (cloudcb cfg st cloud r).1.changeDirection = false) ∧
      ((computeScan cfg cloud).n ≤ 4000 → st.enabled = true →
        (cloudcb cfg st cloud r).2 = List.replicate 21 ⟨-(1/5), -(1/2)⟩ ∧
        (cloudcb cfg st cloud r).1.changeDirection = false) ∧
      ((computeScan cfg cloud).n ≤ 4000 → st.enabled = false →
        cloudcb cfg st cloud r = (st, []))) ∧
    (st.bumperLeft = false → st.bumperCenter = false → st.bumperRight = true →
      ((4000 < (computeScan cfg cloud).n ∨ st.enabled = true) →
        (cloudcb cfg st cloud r).2 = List.replicate 16 ⟨-(1/5), 2/5⟩ ∧
        (cloudcb cfg st cloud r).1.changeDirection = false) ∧
      ((computeScan cfg cloud).n ≤ 4000 → st.enabled = false →
        cloudcb cfg st cloud r = (st, []))) := by
  refine ⟨?_, ?_, ?_⟩
  · intro hl
    constructor
    · intro hfe
      have hcb : cloudcb cfg st cloud r =
          ({ st with changeDirection := false },
           List.replicate 16 ⟨-(1/5), -(2/5)⟩) := by
        rcases Nat.lt_or_ge 4000 (computeScan cfg cloud).n with hf | hf
        · rcases hz : cLt (some 0) (cSub (computeScan cfg cloud).z (some cfg.goal_z)) with _ | _
          · rw [cloudcb_hold cfg st cloud r hf hz]
            exact bumperDispatch_left st _ _ hl hcd
          · rw [cloudcb_approach cfg st cloud r hf hz]
            exact bumperDispatch_left st _ _ hl hcd
        · have he : st.enabled = true := by
            rcases hfe with h | h
            · omega
            · exact h
          rw [cloudcb_noCentroid cfg st cloud r hf he]
          exact bumperDispatch_left st _ _ hl hcd
      rw [hcb]
      exact ⟨rfl, rfl⟩
    · intro hnf he
      exact cloudcb_disabled cfg st cloud r hnf he
  · intro hl hc
    refine ⟨?_, ?_, ?_, ?_⟩
    · intro hf hz
      rw [cloudcb_approach cfg st cloud r hf hz,
        bumperDispatch_center st _ _ hl hc hcd]
      exact ⟨rfl, rfl⟩
    · intro hf hz
      rw [cloudcb_hold cfg st cloud r hf hz,
        bumperDispatch_center st _ _ hl hc hcd]
      exact ⟨rfl, rfl⟩
    · intro hnf he
      rw [cloudcb_noCentroid cfg st cloud r hnf he,
        bumperDispatch_center st _ _ hl hc hcd]
      exact ⟨rfl, rfl⟩
    · intro hnf he
      exact cloudcb_disabled cfg st cloud r hnf he
  · intro hl hc hr
    constructor
    · intro hfe
      have hcb : cloudcb cfg st cloud r =
          ({ st with changeDirection := false },
           List.replicate 16 ⟨-(1/5), 2/5⟩) := by
        rcases Nat.lt_or_ge 4000 (computeScan cfg cloud).n with hf | hf
        · rcases hz : cLt (some 0) (cSub (computeScan cfg cloud).z (some cfg.goal_z)) with _ | _
          · rw [cloudcb_hold cfg st cloud r hf hz]
            exact bumperDispatch_right st _ _ hl hc hr hcd
          · rw [cloudcb_approach cfg st cloud r hf hz]
            exact bumperDispatch_right st _ _ hl hc hr hcd
        · have he : st.enabled = true := by
            rcases hfe with h | h
            · omega
            · exact h
          rw [cloudcb_noCentroid cfg st cloud r hf he]
          exact bumperDispatch_right st _ _ hl hc hr hcd
      rw [hcb]
      exact ⟨rfl, rfl⟩
    · intro hnf he
      exact cloudcb_disabled cfg st cloud r hnf he

/-- Witness for the C1 theorem: left bumper pressed, recovery active, empty
frame while enabled: 16 left-recovery commands, request cleared. -/
theorem recovery_frame_output_witness :
    (cloudcb defaultCfg leftRecSt [] 0).2 = List.replicate 16 ⟨-(1/5), -(2/5)⟩ ∧
    (cloudcb defaultCfg leftRecSt [] 0).1.changeDirection = false :=
  ((recovery_frame_output defaultCfg leftRecSt [] 0 rfl).1 rfl).1 (Or.inr rfl)

/-- C1 counterexample: hold regime (found centroid at range 0.5, at most the
goal 0.6), centre bumper pressed, recovery active: the frame emits 21 copies
of angular -0.4 / linear -0.2, not 20 ticks of the claimed centre command
angular -0.5. -/
theorem recovery_center_hold_budget_cex :
    (cloudcb defaultCfg holdSt holdCloud 0).2 =
      List.replicate 21 ⟨-(1/5), -(2/5)⟩ ∧
    (cloudcb defaultCfg holdSt holdCloud 0).2 ≠
      List.replicate 20 ⟨-(1/5), -(1/2)⟩ := by
  have hmain : (cloudcb defaultCfg holdSt holdCloud 0).2 =
      List.replicate 21 ⟨-(1/5), -(2/5)⟩ := by
    rw [cloudcb_hold defaultCfg holdSt holdCloud 0 holdCloud_found holdCloud_zle,
      bumperDispatch_center holdSt _ _ rfl rfl rfl]
  refine ⟨hmain, ?_⟩
  rw [hmain]
  intro h
  have hlen := congrArg List.length h
  simp only [List.length_replicate] at hlen
  exact absurd hlen (by norm_num)

end RandomWalker
